import Mathlib

/-!
# Verification of the pptx_converter AI narration core

Shallow embedding of `src/ai_narrator.py`: the style registry, the
context-aware prompt builder (`AITeacherNarrator._build_context_aware_prompt`)
and the per-slide narration loop (`AITeacherNarrator.narrate_slides`).

The external generation backend (`client.models.generate_content`) is modelled
as a function from the number of calls made so far to a `GenResult`: either a
response whose `.text` may be absent (`Option String`) or a raised exception
carrying a message.  Side effects of the loop (generation calls with their
prompt and temperature, `time.sleep` calls, progress-callback invocations) are
recorded in an effect trace.  Temperatures are exact rationals (0.7 = 7/10);
the code only ever passes them through, never computes with them.
-/

namespace Pptx

/-- The rational 0.5, in reduced form (kernel-reducible, unlike `1/2`). -/
def qHalf : ℚ := ⟨1, 2, by norm_num, by norm_num⟩

/-- The rational 0.7, in reduced form. -/
def qSevenTenths : ℚ := ⟨7, 10, by norm_num, by norm_num⟩

/-- The rational 0.8, in reduced form. -/
def qFourFifths : ℚ := ⟨4, 5, by norm_num, by norm_num⟩

/-- The rational 5 (the rate-limit backoff, in seconds), in reduced form. -/
def qFive : ℚ := ⟨5, 1, by norm_num, by norm_num⟩

/-- Python `str.strip()`: drop leading and trailing whitespace.  (Lean's own
`String.trim` is not kernel-reducible, so the embedding uses an explicit
executable definition.) -/
def pyStrip (s : String) : String :=
  ⟨((s.data.dropWhile Char.isWhitespace).reverse.dropWhile Char.isWhitespace).reverse⟩

/-- One narration style preset, an entry of `NARRATION_STYLES`. -/
structure StyleConfig where
  name : String
  description : String
  temperature : ℚ
  prompt_style : String
deriving DecidableEq

/-- A slide record: the dict produced by extraction.  `text` is `slide.get("text")`
(`none` when the key is missing), `ai_narration` the field written by the pass,
`extra` stands for any other pre-existing keys, which the pass never touches. -/
structure Slide where
  slide_number : Nat
  text : Option String
  ai_narration : Option String := none
  extra : List (String × String) := []
deriving DecidableEq

/-- One entry of `self.conversation_history`. -/
structure ContextEntry where
  slide_number : Nat
  text : String
  narration : String
deriving DecidableEq

/-- Result of one `generate_content` call: a response whose `.text` may be
`None`, or a raised exception with message `msg`. -/
inductive GenResult where
  | ok (text : Option String)
  | error (msg : String)
deriving DecidableEq

/-- Observable side effects of the narration loop. -/
inductive Effect where
  | genCall (prompt : String) (temperature : ℚ)
  | sleep (seconds : ℚ)
  | progress (msg : String)
deriving DecidableEq

/-- `NARRATION_STYLES["professional"]`. -/
def professionalStyle : StyleConfig :=
  { name := "Professional Lecturer"
    description := "Formal, academic tone suitable for business and educational presentations"
    temperature := qHalf
    prompt_style := "formal and professional, like a university professor or corporate trainer" }

/-- `NARRATION_STYLES["engaging"]`. -/
def engagingStyle : StyleConfig :=
  { name := "Engaging Teacher"
    description := "Conversational and friendly, like your favorite teacher explaining concepts"
    temperature := qSevenTenths
    prompt_style := "conversational and engaging, like a favorite teacher who makes learning fun" }

/-- `NARRATION_STYLES["enthusiastic"]`. -/
def enthusiasticStyle : StyleConfig :=
  { name := "Enthusiastic Presenter"
    description := "Energetic and passionate, great for motivational or sales presentations"
    temperature := qFourFifths
    prompt_style := "highly energetic and passionate, using vivid language and excitement" }

/-- `NARRATION_STYLES["casual"]`. -/
def casualStyle : StyleConfig :=
  { name := "Casual Explainer"
    description := "Relaxed and friendly, using simple language and everyday analogies"
    temperature := qSevenTenths
    prompt_style := "relaxed and friendly, using simple everyday language and relatable examples" }

/-- `NARRATION_STYLES["storyteller"]`. -/
def storytellerStyle : StyleConfig :=
  { name := "Story Teller"
    description := "Narrative style that weaves information into a compelling story"
    temperature := qFourFifths
    prompt_style := "narrative and story-driven, connecting ideas into a flowing story" }

/-- The `NARRATION_STYLES` dictionary, as an ordered association list. -/
def NARRATION_STYLES : List (String × StyleConfig) :=
  [("professional", professionalStyle),
   ("engaging", engagingStyle),
   ("enthusiastic", enthusiasticStyle),
   ("casual", casualStyle),
   ("storyteller", storytellerStyle)]

/-- `AITeacherNarrator._get_style_config`:
`NARRATION_STYLES.get(style_key, NARRATION_STYLES["engaging"])`. -/
def getStyleConfig (style_key : String) : StyleConfig :=
  (NARRATION_STYLES.lookup style_key).getD engagingStyle

/-- Python slice `s[:n]`. -/
def strTake (s : String) (n : Nat) : String := ⟨s.data.take n⟩

/-- Python slice `s[-n:]`. -/
def strTakeRight (s : String) (n : Nat) : String := ⟨s.data.drop (s.data.length - n)⟩

/-- Python slice `l[-n:]` on lists. -/
def takeLast {α : Type} (n : Nat) (l : List α) : List α := l.drop (l.length - n)

/-- Does `sub` occur as a contiguous substring of the second list? -/
def occursIn (sub : List Char) : List Char → Bool
  | [] => sub.isEmpty
  | c :: t => sub.isPrefixOf (c :: t) || occursIn sub t

/-- Python `sub in s` for strings. -/
def strContains (s sub : String) : Bool := occursIn sub.data s.data

/-- `"403" in error_msg or "PERMISSION_DENIED" in error_msg`. -/
def isAuthError (msg : String) : Bool :=
  strContains msg "403" || strContains msg "PERMISSION_DENIED"

/-- `"429" in error_msg or "RESOURCE_EXHAUSTED" in error_msg`. -/
def isRateError (msg : String) : Bool :=
  strContains msg "429" || strContains msg "RESOURCE_EXHAUSTED"

/-- Python truthiness test `narration and narration.strip()` on `response.text`. -/
def respSuccess : Option String → Bool
  | none => false
  | some t => pyStrip t != ""

/-- Python `str.split()` (split on whitespace runs, dropping empty pieces). -/
def pySplit (s : String) : List String :=
  (s.split Char.isWhitespace).filter (fun w => w != "")

/-- The opener template (`slide_number == 1` branch of
`_build_context_aware_prompt`). -/
def openerPrompt (style_desc slide_text : String) (total_slides : Nat) : String :=
  "You are the presenter starting a " ++ toString total_slides ++ "-slide presentation.\n" ++
  "This is the Title Slide: \x27" ++ slide_text ++ "\x27\n\n" ++
  "INSTRUCTIONS:\n" ++
  "1. Start with \x27Good morning everyone\x27 (or a similar warm welcome).\n" ++
  "2. Introduce the topic clearly.\n" ++
  "3. Give a brief 1-sentence hook about what we will cover.\n" ++
  "Tone: " ++ style_desc

/-- The closer's bridging context: `""` when the history is empty, otherwise
`f"Previous slide discussed: {last['narration'][:100]}..."`. -/
def closerContext (hist : List ContextEntry) : String :=
  match hist.getLast? with
  | none => ""
  | some last => "Previous slide discussed: " ++ strTake last.narration 100 ++ "..."

/-- Instruction line 2 of the closer template. -/
def noGreetingLine : String := "2. Do NOT say \x27Good morning\x27 or introduce yourself.\n"

/-- Instruction line 3 of the closer template, with the exact sign-off phrase. -/
def signOffLine : String :=
  "3. End with this exact sign-off: \x27Thank you for your attention, and I will see you next week.\x27\n"

/-- The closer template (`slide_number == total_slides` branch). -/
def closerPrompt (style_desc slide_text : String) (hist : List ContextEntry) : String :=
  "You are concluding a presentation. This is the Final Slide.\n" ++
  "Context from previous slide: " ++ closerContext hist ++ "\n" ++
  "Final Slide Content: " ++ slide_text ++ "\n\n" ++
  "INSTRUCTIONS:\n" ++
  "1. Briefly summarize the main takeaway.\n" ++
  noGreetingLine ++
  signOffLine ++
  "Tone: " ++ style_desc

/-- One line of the body template's context block:
`f"Slide {prev_num} ended with: ...{prev_narration}"` with
`prev_narration = prev_slide['narration'][-150:]`. -/
def contextItem (p : ContextEntry) : String :=
  "Slide " ++ toString p.slide_number ++ " ended with: ..." ++ strTakeRight p.narration 150

/-- The body template's context block: `""` when the history is empty, otherwise
the last 2 history entries joined by newlines. -/
def bodyContext (hist : List ContextEntry) : String :=
  if hist.isEmpty then ""
  else String.intercalate "\n" ((takeLast 2 hist).map contextItem)

/-- The body template (middle-slides branch). -/
def bodyPrompt (style_desc slide_text : String) (slide_number total_slides : Nat)
    (hist : List ContextEntry) : String :=
  "You are narrating slide " ++ toString slide_number ++ " of " ++ toString total_slides ++
  " (Middle of presentation).\n\n" ++
  "PREVIOUS CONTEXT (flow from this):\n" ++ bodyContext hist ++ "\n\n" ++
  "CURRENT SLIDE CONTENT:\n" ++ slide_text ++ "\n\n" ++
  "STRICT INSTRUCTIONS:\n" ++
  "1. Do NOT say \x27Good morning\x27, \x27Hello\x27, or \x27Welcome\x27 again.\n" ++
  "2. Do NOT introduce yourself.\n" ++
  "3. Use a transition phrase (e.g., \x27Moving on...\x27, \x27Furthermore...\x27, \x27As we can see here...\x27) to connect to the previous context.\n" ++
  "4. Explain the current slide content naturally.\n" ++
  "Tone: " ++ style_desc

/-- `AITeacherNarrator._build_context_aware_prompt`.  The `is_title` parameter
is accepted (as in the source) but not consulted by any branch. -/
def buildContextAwarePrompt (style : String) (hist : List ContextEntry)
    (slide_text : String) (slide_number total_slides : Nat) (is_title : Bool) : String :=
  let style_desc := (getStyleConfig style).prompt_style
  if slide_number == 1 then
    openerPrompt style_desc slide_text total_slides
  else if slide_number == total_slides then
    closerPrompt style_desc slide_text hist
  else
    bodyPrompt style_desc slide_text slide_number total_slides hist

/-- The state of the narrator that matters to the loop: `self.temperature`
(constructor default 0.7) and `self.style` (constructor default "engaging"). -/
structure Narrator where
  temperature : ℚ := qSevenTenths
  style : String := "engaging"
deriving DecidableEq

/-- Outcome of one iteration of `for attempt in (1, 2)`. -/
inductive AttemptResult where
  | success (narr : String)
  | authFail
  | fellBack
  | retryNext
deriving DecidableEq

/-- One iteration of the attempt loop for one slide.  `backend calls` is the
result of the generation call (the `calls`-th call overall); the returned
effects are the generation call and the sleeps executed during this iteration,
in order.  On success and on a 403/PERMISSION_DENIED error the loop `break`s,
so the trailing `time.sleep(0.8)` is not reached; otherwise the iteration
falls through to it. -/
def attemptStep (backend : Nat → GenResult) (calls : Nat) (prompt : String)
    (temperature : ℚ) (attempt : Nat) : AttemptResult × List Effect :=
  match backend calls with
  | GenResult.ok t =>
    if respSuccess t then
      (AttemptResult.success (pyStrip (t.getD "")), [Effect.genCall prompt temperature])
    else if attempt == 2 then
      (AttemptResult.fellBack, [Effect.genCall prompt temperature, Effect.sleep qFourFifths])
    else
      (AttemptResult.retryNext, [Effect.genCall prompt temperature, Effect.sleep qFourFifths])
  | GenResult.error msg =>
    if isAuthError msg then
      (AttemptResult.authFail, [Effect.genCall prompt temperature])
    else if isRateError msg then
      if attempt == 2 then
        (AttemptResult.fellBack,
         [Effect.genCall prompt temperature, Effect.sleep qFive, Effect.sleep qFourFifths])
      else
        (AttemptResult.retryNext,
         [Effect.genCall prompt temperature, Effect.sleep qFive, Effect.sleep qFourFifths])
    else if attempt == 2 then
      (AttemptResult.fellBack, [Effect.genCall prompt temperature, Effect.sleep qFourFifths])
    else
      (AttemptResult.retryNext, [Effect.genCall prompt temperature, Effect.sleep qFourFifths])

/-- The retry loop `for attempt in (1, 2)` for one non-trivial slide, with the
per-outcome updates of `narrate_slides`: on success the stripped response is
stored and a history entry appended (then `break`); on a 403/PERMISSION_DENIED
error the slide falls back immediately (then `break`); otherwise attempt 2 runs
and on any non-success outcome the slide falls back to its stripped `text`.
Returns the updated slide, history, overall call count and effect trace. -/
def slideAttempts (backend : Nat → GenResult) (temp : ℚ) (prompt : String)
    (i : Nat) (text : String) (slide : Slide) (hist : List ContextEntry) (calls : Nat) :
    Slide × List ContextEntry × Nat × List Effect :=
  match attemptStep backend calls prompt temp 1 with
  | (AttemptResult.success narr, effs1) =>
    ({ slide with ai_narration := some narr }, hist ++ [⟨i, text, narr⟩], calls + 1, effs1)
  | (AttemptResult.authFail, effs1) =>
    ({ slide with ai_narration := some text }, hist, calls + 1, effs1)
  | (AttemptResult.fellBack, effs1) =>
    ({ slide with ai_narration := some text }, hist, calls + 1, effs1)
  | (AttemptResult.retryNext, effs1) =>
    match attemptStep backend (calls + 1) prompt temp 2 with
    | (AttemptResult.success narr, effs2) =>
      ({ slide with ai_narration := some narr }, hist ++ [⟨i, text, narr⟩], calls + 2,
       effs1 ++ effs2)
    | (_, effs2) =>
      ({ slide with ai_narration := some text }, hist, calls + 2, effs1 ++ effs2)

/-- The body of the `for i, slide in enumerate(slides_data, 1)` loop of
`narrate_slides`, for one slide.  Returns the updated slide, the updated
conversation history, the updated overall call count and the effect trace.
`cb` records whether a `progress_callback` was supplied. -/
def processSlide (nar : Narrator) (cb : Bool) (backend : Nat → GenResult)
    (total i : Nat) (slide : Slide) (hist : List ContextEntry) (calls : Nat) :
    Slide × List ContextEntry × Nat × List Effect :=
  let text := pyStrip (slide.text.getD "")
  if text.length < 5 then
    ({ slide with ai_narration := some text }, hist, calls, [])
  else
    let progEffs := if cb then
        [Effect.progress ("Generating narration " ++ toString i ++ "/" ++ toString total ++
          " (with context)")]
      else []
    let is_title := (i == 1) || ((pySplit text).length < 15)
    let prompt := buildContextAwarePrompt nar.style hist text i total is_title
    let r := slideAttempts backend nar.temperature prompt i text slide hist calls
    (r.1, r.2.1, r.2.2.1, progEffs ++ r.2.2.2)

/-- The slide loop of `narrate_slides`, threading the 1-based index, the
conversation history and the overall call count. -/
def narrateGo (nar : Narrator) (cb : Bool) (backend : Nat → GenResult) (total : Nat) :
    List Slide → Nat → List ContextEntry → Nat →
    List Slide × List ContextEntry × Nat × List Effect
  | [], _, hist, calls => ([], hist, calls, [])
  | s :: rest, i, hist, calls =>
    let r := processSlide nar cb backend total i s hist calls
    let rr := narrateGo nar cb backend total rest (i + 1) r.2.1 r.2.2.1
    (r.1 :: rr.1, rr.2.1, rr.2.2.1, r.2.2.2 ++ rr.2.2.2)

/-- `AITeacherNarrator.narrate_slides`: resets the conversation history, then
processes every slide in order.  The first component of the result is the
returned (mutated) slide list. -/
def narrateSlides (nar : Narrator) (cb : Bool) (backend : Nat → GenResult)
    (slides_data : List Slide) : List Slide × List ContextEntry × Nat × List Effect :=
  narrateGo nar cb backend slides_data.length slides_data 1 [] 0

/-- Is the effect a generation call? -/
def isGenCall : Effect → Bool
  | Effect.genCall _ _ => true
  | _ => false

/-- Number of generation calls in an effect trace. -/
def countGenCalls (effs : List Effect) : Nat := (effs.filter isGenCall).length

/-- Is the effect the fixed 0.8-second pacing sleep at the bottom of the
attempt loop? -/
def isPacingSleep : Effect → Bool
  | Effect.sleep s => s == qFourFifths
  | _ => false

/-- The temperatures of the generation calls in an effect trace, in order. -/
def genCallTemps (effs : List Effect) : List ℚ :=
  effs.filterMap fun e =>
    match e with
    | Effect.genCall _ t => some t
    | _ => none

/-- A `GenResult` that Python's `if narration and narration.strip():` treats as
empty: a response (no exception) whose text is `None` or whitespace-only. -/
def isEmptyResp : GenResult → Bool
  | GenResult.ok t => !(respSuccess t)
  | GenResult.error _ => false

/-- The relation between an input slide record and the corresponding output
record: every field except `ai_narration` is unchanged. -/
def framePreserved (s t : Slide) : Prop :=
  t.slide_number = s.slide_number ∧ t.text = s.text ∧ t.extra = s.extra

theorem qSevenTenths_eq : qSevenTenths = 7/10 := by
  rw [qSevenTenths, Rat.mk'_eq_divInt, Rat.divInt_eq_div]; norm_num

theorem qHalf_eq : qHalf = 1/2 := by
  rw [qHalf, Rat.mk'_eq_divInt, Rat.divInt_eq_div]; norm_num

theorem qFourFifths_eq : qFourFifths = 4/5 := by
  rw [qFourFifths, Rat.mk'_eq_divInt, Rat.divInt_eq_div]; norm_num

theorem qFive_eq : qFive = 5 := by
  rw [qFive, Rat.mk'_eq_divInt, Rat.divInt_eq_div]; norm_num

theorem occursIn_append_self (sub post : List Char) : occursIn sub (sub ++ post) = true := by
  cases sub with
  | nil =>
    cases post with
    | nil => rfl
    | cons c t => simp [occursIn]
  | cons a t =>
    have hpre : (a :: t).isPrefixOf ((a :: t) ++ post) = true := by
      rw [List.isPrefixOf_iff_prefix]; exact ⟨post, rfl⟩
    simp [occursIn, hpre]

theorem occursIn_append_left (pre sub rest : List Char) (h : occursIn sub rest = true) :
    occursIn sub (pre ++ rest) = true := by
  induction pre with
  | nil => simpa using h
  | cons a t ih => simp [occursIn, ih]

theorem strContains_of_eq (s pre sub post : String) (h : s = pre ++ (sub ++ post)) :
    strContains s sub = true := by
  subst h
  show occursIn sub.data (pre ++ (sub ++ post)).data = true
  have hd : (pre ++ (sub ++ post)).data = pre.data ++ (sub.data ++ post.data) := by simp
  rw [hd]
  exact occursIn_append_left _ _ _ (occursIn_append_self _ _)

theorem attemptStep_empty (backend : Nat → GenResult) (calls : Nat) (prompt : String)
    (temp : ℚ) (attempt : Nat) (hb : isEmptyResp (backend calls) = true) :
    attemptStep backend calls prompt temp attempt =
      (if attempt == 2 then AttemptResult.fellBack else AttemptResult.retryNext,
       [Effect.genCall prompt temp, Effect.sleep qFourFifths]) := by
  cases hc : backend calls with
  | ok t =>
    have hr : respSuccess t = false := by
      have h2 := hb; rw [hc] at h2; simpa [isEmptyResp] using h2
    cases h2 : (attempt == 2) <;> simp [attemptStep, hc, hr, h2]
  | error msg => rw [hc] at hb; simp [isEmptyResp] at hb

theorem attemptStep_auth (backend : Nat → GenResult) (calls : Nat) (prompt : String)
    (temp : ℚ) (attempt : Nat) (msg : String)
    (hc : backend calls = GenResult.error msg) (ha : isAuthError msg = true) :
    attemptStep backend calls prompt temp attempt =
      (AttemptResult.authFail, [Effect.genCall prompt temp]) := by
  simp [attemptStep, hc, ha]

theorem attemptStep_success (backend : Nat → GenResult) (calls : Nat) (prompt : String)
    (temp : ℚ) (attempt : Nat) (t : Option String)
    (hc : backend calls = GenResult.ok t) (hr : respSuccess t = true) :
    attemptStep backend calls prompt temp attempt =
      (AttemptResult.success (pyStrip (t.getD "")), [Effect.genCall prompt temp]) := by
  simp [attemptStep, hc, hr]

theorem attemptStep_success_inv {backend : Nat → GenResult} {calls : Nat} {prompt : String}
    {temp : ℚ} {attempt : Nat} {narr : String}
    (h : (attemptStep backend calls prompt temp attempt).1 = AttemptResult.success narr) :
    ∃ t, backend calls = GenResult.ok t ∧ respSuccess t = true ∧ narr = pyStrip (t.getD "") := by
  cases hc : backend calls with
  | ok t =>
    rw [attemptStep, hc] at h
    by_cases hr : respSuccess t = true
    · simp [hr] at h
      exact ⟨t, rfl, hr, h.symm⟩
    · exfalso
      cases h2 : (attempt == 2) <;> simp [hr, h2] at h
  | error msg =>
    exfalso
    rw [attemptStep, hc] at h
    cases ha : isAuthError msg <;> cases hr2 : isRateError msg <;>
      cases h2 : (attempt == 2) <;> simp [ha, hr2, h2] at h

theorem genCallTemps_attemptStep (backend : Nat → GenResult) (calls : Nat) (prompt : String)
    (temp : ℚ) (attempt : Nat) :
    genCallTemps (attemptStep backend calls prompt temp attempt).2 = [temp] := by
  cases hc : backend calls <;>
    simp [attemptStep, hc, genCallTemps] <;> split_ifs <;> simp [genCallTemps]


theorem slideAttempts_isSome (backend : Nat → GenResult) (temp : ℚ) (prompt : String)
    (i : Nat) (text : String) (slide : Slide) (hist : List ContextEntry) (calls : Nat) :
    (slideAttempts backend temp prompt i text slide hist calls).1.ai_narration.isSome = true := by
  rcases h1 : attemptStep backend calls prompt temp 1 with ⟨r1, effs1⟩
  rcases h2 : attemptStep backend (calls + 1) prompt temp 2 with ⟨r2, effs2⟩
  unfold slideAttempts
  rw [h1]
  cases r1 <;> try rfl
  rw [h2]
  cases r2 <;> rfl

theorem slideAttempts_frame (backend : Nat → GenResult) (temp : ℚ) (prompt : String)
    (i : Nat) (text : String) (slide : Slide) (hist : List ContextEntry) (calls : Nat) :
    framePreserved slide (slideAttempts backend temp prompt i text slide hist calls).1 := by
  rcases h1 : attemptStep backend calls prompt temp 1 with ⟨r1, effs1⟩
  rcases h2 : attemptStep backend (calls + 1) prompt temp 2 with ⟨r2, effs2⟩
  unfold slideAttempts
  rw [h1]
  cases r1 <;> try exact ⟨rfl, rfl, rfl⟩
  rw [h2]
  cases r2 <;> exact ⟨rfl, rfl, rfl⟩

theorem processSlide_narration_isSome (nar : Narrator) (cb : Bool)
    (backend : Nat → GenResult) (total i : Nat) (slide : Slide)
    (hist : List ContextEntry) (calls : Nat) :
    (processSlide nar cb backend total i slide hist calls).1.ai_narration.isSome = true := by
  unfold processSlide
  by_cases h : (pyStrip (slide.text.getD "")).length < 5
  · simp only [if_pos h, Option.isSome_some]
  · simp only [if_neg h]
    exact slideAttempts_isSome ..

theorem processSlide_frame (nar : Narrator) (cb : Bool)
    (backend : Nat → GenResult) (total i : Nat) (slide : Slide)
    (hist : List ContextEntry) (calls : Nat) :
    framePreserved slide (processSlide nar cb backend total i slide hist calls).1 := by
  unfold processSlide
  by_cases h : (pyStrip (slide.text.getD "")).length < 5
  · simp only [if_pos h]
    exact ⟨rfl, rfl, rfl⟩
  · simp only [if_neg h]
    exact slideAttempts_frame ..


theorem slideAttempts_hist (backend : Nat → GenResult) (temp : ℚ) (prompt : String)
    (i : Nat) (text : String) (slide : Slide) (hist : List ContextEntry) (calls : Nat) :
    (slideAttempts backend temp prompt i text slide hist calls).2.1 = hist ∨
    ∃ narr k t, k ≤ 1 ∧ backend (calls + k) = GenResult.ok t ∧ respSuccess t = true ∧
      narr = pyStrip (t.getD "") ∧
      (slideAttempts backend temp prompt i text slide hist calls).2.1 =
        hist ++ [⟨i, text, narr⟩] ∧
      (slideAttempts backend temp prompt i text slide hist calls).1.ai_narration = some narr := by
  rcases h1 : attemptStep backend calls prompt temp 1 with ⟨r1, effs1⟩
  rcases h2 : attemptStep backend (calls + 1) prompt temp 2 with ⟨r2, effs2⟩
  unfold slideAttempts
  rw [h1]
  cases r1 with
  | success narr =>
    right
    obtain ⟨t, hc, hr, hn⟩ := attemptStep_success_inv (by rw [h1])
    exact ⟨narr, 0, t, by omega, by simpa using hc, hr, hn, rfl, rfl⟩
  | authFail => exact Or.inl rfl
  | fellBack => exact Or.inl rfl
  | retryNext =>
    rw [h2]
    cases r2 with
    | success narr =>
      right
      obtain ⟨t, hc, hr, hn⟩ := attemptStep_success_inv (by rw [h2])
      exact ⟨narr, 1, t, by omega, hc, hr, hn, rfl, rfl⟩
    | authFail => exact Or.inl rfl
    | fellBack => exact Or.inl rfl
    | retryNext => exact Or.inl rfl

theorem slideAttempts_empty_backend (backend : Nat → GenResult) (temp : ℚ) (prompt : String)
    (i : Nat) (text : String) (slide : Slide) (hist : List ContextEntry) (calls : Nat)
    (hb : ∀ n, isEmptyResp (backend n) = true) :
    slideAttempts backend temp prompt i text slide hist calls =
      ({ slide with ai_narration := some text }, hist, calls + 2,
       [Effect.genCall prompt temp, Effect.sleep qFourFifths,
        Effect.genCall prompt temp, Effect.sleep qFourFifths]) := by
  unfold slideAttempts
  rw [attemptStep_empty backend calls prompt temp 1 (hb calls)]
  simp only [show ((1 : Nat) == 2) = false from rfl]
  rw [attemptStep_empty backend (calls + 1) prompt temp 2 (hb (calls + 1))]
  rfl

theorem slideAttempts_auth_first (backend : Nat → GenResult) (temp : ℚ) (prompt : String)
    (i : Nat) (text : String) (slide : Slide) (hist : List ContextEntry) (calls : Nat)
    (msg : String) (hc : backend calls = GenResult.error msg) (ha : isAuthError msg = true) :
    slideAttempts backend temp prompt i text slide hist calls =
      ({ slide with ai_narration := some text }, hist, calls + 1,
       [Effect.genCall prompt temp]) := by
  unfold slideAttempts
  rw [attemptStep_auth backend calls prompt temp 1 msg hc ha]

theorem genCallTemps_slideAttempts (backend : Nat → GenResult) (temp : ℚ) (prompt : String)
    (i : Nat) (text : String) (slide : Slide) (hist : List ContextEntry) (calls : Nat) :
    genCallTemps (slideAttempts backend temp prompt i text slide hist calls).2.2.2 = [temp] ∨
    genCallTemps (slideAttempts backend temp prompt i text slide hist calls).2.2.2 =
      [temp, temp] := by
  rcases h1 : attemptStep backend calls prompt temp 1 with ⟨r1, effs1⟩
  rcases h2 : attemptStep backend (calls + 1) prompt temp 2 with ⟨r2, effs2⟩
  have g1 : genCallTemps effs1 = [temp] := by
    have := genCallTemps_attemptStep backend calls prompt temp 1
    rwa [h1] at this
  have g2 : genCallTemps effs2 = [temp] := by
    have := genCallTemps_attemptStep backend (calls + 1) prompt temp 2
    rwa [h2] at this
  unfold slideAttempts
  rw [h1]
  cases r1 <;> try exact Or.inl g1
  rw [h2]
  have gapp : genCallTemps (effs1 ++ effs2) = [temp, temp] := by
    unfold genCallTemps at g1 g2 ⊢
    rw [List.filterMap_append, g1, g2]
    rfl
  cases r2 <;> exact Or.inr gapp


theorem genCallTemps_append (a b : List Effect) :
    genCallTemps (a ++ b) = genCallTemps a ++ genCallTemps b := by
  unfold genCallTemps; exact List.filterMap_append ..

theorem genCallTemps_prog (cb : Bool) (m : String) :
    genCallTemps (if cb then [Effect.progress m] else []) = [] := by
  cases cb <;> simp [genCallTemps]

/-- Claim C2 (amended): for every slide whose stripped text has at least 5
characters, if the backend returns an empty or whitespace-only response on
every call, exactly 2 generation calls are made for that slide and its
narration falls back to the slide's *stripped* text (`text.strip()`, not the
raw `text` field). -/
theorem retry_budget (nar : Narrator) (cb : Bool) (backend : Nat → GenResult)
    (total i : Nat) (slide : Slide) (hist : List ContextEntry) (calls : Nat)
    (hlen : 5 ≤ (pyStrip (slide.text.getD "")).length)
    (hb : ∀ n, isEmptyResp (backend n) = true) :
    countGenCalls (processSlide nar cb backend total i slide hist calls).2.2.2 = 2 ∧
    (processSlide nar cb backend total i slide hist calls).1.ai_narration =
      some (pyStrip (slide.text.getD "")) := by
  simp only [processSlide]
  rw [if_neg (by omega)]
  rw [slideAttempts_empty_backend _ _ _ _ _ _ _ _ hb]
  refine ⟨?_, rfl⟩
  cases cb <;> simp [countGenCalls, isGenCall]

/-- Claim C3 (amended): for every non-trivial slide, if the backend raises an
error whose message contains "403" or "PERMISSION_DENIED" on the first
attempt, exactly 1 generation call is made for that slide (the second attempt
is not consumed) and its narration falls back to the slide's *stripped*
text. -/
theorem auth_short_circuit (nar : Narrator) (cb : Bool) (backend : Nat → GenResult)
    (total i : Nat) (slide : Slide) (hist : List ContextEntry) (calls : Nat)
    (msg : String)
    (hlen : 5 ≤ (pyStrip (slide.text.getD "")).length)
    (hc : backend calls = GenResult.error msg) (ha : isAuthError msg = true) :
    countGenCalls (processSlide nar cb backend total i slide hist calls).2.2.2 = 1 ∧
    (processSlide nar cb backend total i slide hist calls).1.ai_narration =
      some (pyStrip (slide.text.getD "")) := by
  simp only [processSlide]
  rw [if_neg (by omega)]
  rw [slideAttempts_auth_first _ _ _ _ _ _ _ _ msg hc ha]
  refine ⟨?_, rfl⟩
  cases cb <;> simp [countGenCalls, isGenCall]

/-- Claim C5 (amended): for every slide whose stripped text has fewer than 5
characters, the pass sets its narration to the *stripped* text (equal to the
raw `text` field only when that has no leading/trailing whitespace), makes no
generation call, emits no effect at all, and creates no context entry. -/
theorem trivial_passthrough (nar : Narrator) (cb : Bool) (backend : Nat → GenResult)
    (total i : Nat) (slide : Slide) (hist : List ContextEntry) (calls : Nat)
    (h : (pyStrip (slide.text.getD "")).length < 5) :
    processSlide nar cb backend total i slide hist calls =
      ({ slide with ai_narration := some (pyStrip (slide.text.getD "")) }, hist, calls, []) := by
  simp only [processSlide]
  rw [if_pos h]

/-- Claim C4 (amended): every generation call of the per-slide loop is made
with the narrator's configured `self.temperature` (constructor argument,
default 0.7) — the temperature of the selected style's `StyleConfig` is never
consulted for the call. -/
theorem generation_temperature (nar : Narrator) (cb : Bool) (backend : Nat → GenResult)
    (total i : Nat) (slide : Slide) (hist : List ContextEntry) (calls : Nat) :
    ∀ t ∈ genCallTemps (processSlide nar cb backend total i slide hist calls).2.2.2,
      t = nar.temperature := by
  intro t ht
  by_cases h : (pyStrip (slide.text.getD "")).length < 5
  · simp only [processSlide] at ht
    rw [if_pos h] at ht
    simp [genCallTemps] at ht
  · simp only [processSlide] at ht
    rw [if_neg h] at ht
    rw [genCallTemps_append, genCallTemps_prog] at ht
    rcases genCallTemps_slideAttempts backend nar.temperature
        (buildContextAwarePrompt nar.style hist (pyStrip (slide.text.getD "")) i total
          ((i == 1) || ((pySplit (pyStrip (slide.text.getD ""))).length < 15)))
        i (pyStrip (slide.text.getD "")) slide hist calls with hg | hg <;>
      rw [hg] at ht <;> simpa using ht

theorem narrateGo_all_isSome (nar : Narrator) (cb : Bool) (backend : Nat → GenResult)
    (total : Nat) (slides : List Slide) :
    ∀ (i : Nat) (hist : List ContextEntry) (calls : Nat),
    ((narrateGo nar cb backend total slides i hist calls).1.all
      fun s => s.ai_narration.isSome) = true := by
  induction slides with
  | nil => intro i hist calls; rfl
  | cons s rest ih =>
    intro i hist calls
    simp only [narrateGo]
    rw [List.all_cons]
    rw [processSlide_narration_isSome, ih]
    rfl

theorem narrateGo_frame (nar : Narrator) (cb : Bool) (backend : Nat → GenResult)
    (total : Nat) (slides : List Slide) :
    ∀ (i : Nat) (hist : List ContextEntry) (calls : Nat),
    List.Forall₂ framePreserved slides (narrateGo nar cb backend total slides i hist calls).1 := by
  induction slides with
  | nil => intro i hist calls; exact List.Forall₂.nil
  | cons s rest ih =>
    intro i hist calls
    simp only [narrateGo]
    exact List.Forall₂.cons (processSlide_frame ..) (ih ..)

/-- Claim C1: for every input deck and every backend behaviour, `narrate_slides`
completes (the embedding is a total function: every backend exception is caught
inside the per-slide loop) and afterwards every slide record carries a non-null
narration value, set by generation success, fallback to the slide's stripped
text, or trivial passthrough. -/
theorem narrate_total_coverage (nar : Narrator) (cb : Bool) (backend : Nat → GenResult)
    (slides : List Slide) :
    ((narrateSlides nar cb backend slides).1.all fun s => s.ai_narration.isSome) = true := by
  unfold narrateSlides
  exact narrateGo_all_isSome ..

/-- Claim C10: `narrate_slides` returns the slide sequence it was given, in
the same order (element for element), and for every slide record it writes
only the narration field: `slide_number`, `text` and all other pre-existing
fields are unchanged by the pass. -/
theorem narrate_frame (nar : Narrator) (cb : Bool) (backend : Nat → GenResult)
    (slides : List Slide) :
    List.Forall₂ framePreserved slides (narrateSlides nar cb backend slides).1 := by
  unfold narrateSlides
  exact narrateGo_frame ..


/-- Claim C9 (amended): the fixed 0.8-second pacing sleep runs after an
attempt-loop iteration only when the iteration falls through (empty response,
rate-limit error — after its own 5-second sleep — or other non-auth error);
iterations that end in success or in an authorization error `break` out of the
loop before reaching `time.sleep(0.8)`, so no pacing sleep runs for them. -/
theorem pacing_sleep (backend : Nat → GenResult) (calls : Nat) (prompt : String)
    (temp : ℚ) (attempt : Nat) :
    ((∃ narr, (attemptStep backend calls prompt temp attempt).1 = AttemptResult.success narr) →
      (attemptStep backend calls prompt temp attempt).2.filter isPacingSleep = []) ∧
    ((attemptStep backend calls prompt temp attempt).1 = AttemptResult.authFail →
      (attemptStep backend calls prompt temp attempt).2.filter isPacingSleep = []) ∧
    ((attemptStep backend calls prompt temp attempt).1 = AttemptResult.retryNext →
      (attemptStep backend calls prompt temp attempt).2.getLast? =
        some (Effect.sleep qFourFifths)) ∧
    ((attemptStep backend calls prompt temp attempt).1 = AttemptResult.fellBack →
      (attemptStep backend calls prompt temp attempt).2.getLast? =
        some (Effect.sleep qFourFifths)) := by
  cases hc : backend calls with
  | ok t =>
    cases hr : respSuccess t <;> cases h2 : (attempt == 2) <;>
      simp [attemptStep, hc, hr, h2, isPacingSleep]
  | error msg =>
    cases ha : isAuthError msg <;> cases hrr : isRateError msg <;>
      cases h2 : (attempt == 2) <;>
      simp [attemptStep, hc, ha, hrr, h2, isPacingSleep]

/-- Witness for `pacing_sleep` at concrete backends (success and empty). -/
theorem pacing_sleep_witness :
    ((attemptStep (fun _ => GenResult.ok (some "Generated narration")) 0 "p" qSevenTenths 1).2.filter
      isPacingSleep = []) ∧
    ((attemptStep (fun _ => GenResult.ok none) 0 "p" qSevenTenths 1).2.getLast? =
      some (Effect.sleep qFourFifths)) := by
  constructor
  · exact (pacing_sleep (fun _ => GenResult.ok (some "Generated narration")) 0 "p"
      qSevenTenths 1).1 ⟨"Generated narration", by decide⟩
  · exact (pacing_sleep (fun _ => GenResult.ok none) 0 "p" qSevenTenths 1).2.2.1 (by decide)

/-- Counterexample to claim C9 as stated: a slide whose first attempt
succeeds makes 1 generation call but executes no 0.8-second pacing sleep at
all — `break` exits the attempt loop before `time.sleep(0.8)`. -/
theorem pacing_sleep_cex :
    ((processSlide ⟨qSevenTenths, "engaging"⟩ false
        (fun _ => GenResult.ok (some "Generated narration")) 1 1
        { slide_number := 1, text := some "Hello world", ai_narration := none, extra := [] }
        [] 0).2.2.2.filter isPacingSleep = []) ∧
    countGenCalls (processSlide ⟨qSevenTenths, "engaging"⟩ false
        (fun _ => GenResult.ok (some "Generated narration")) 1 1
        { slide_number := 1, text := some "Hello world", ai_narration := none, extra := [] }
        [] 0).2.2.2 = 1 := by
  refine ⟨by decide, by decide⟩

/-- Witness for `retry_budget` at a concrete slide and backend. -/
theorem retry_budget_witness :
    countGenCalls (processSlide ⟨qSevenTenths, "engaging"⟩ false
      (fun _ => GenResult.ok (some "")) 1 1
      { slide_number := 1, text := some "Hello world", ai_narration := none, extra := [] }
      [] 0).2.2.2 = 2 ∧
    (processSlide ⟨qSevenTenths, "engaging"⟩ false
      (fun _ => GenResult.ok (some "")) 1 1
      { slide_number := 1, text := some "Hello world", ai_narration := none, extra := [] }
      [] 0).1.ai_narration = some (pyStrip ((some "Hello world").getD "")) :=
  retry_budget ⟨qSevenTenths, "engaging"⟩ false (fun _ => GenResult.ok (some "")) 1 1
    { slide_number := 1, text := some "Hello world", ai_narration := none, extra := [] }
    [] 0 (by decide) (fun n => rfl)

/-- Counterexample to claim C2 as stated: for the slide text " hello "
(stripped length 5) and an always-empty backend, exactly 2 calls are made but
the narration is the stripped "hello", not the original `text` field
" hello ". -/
theorem retry_budget_cex :
    countGenCalls (processSlide ⟨qSevenTenths, "engaging"⟩ false
      (fun _ => GenResult.ok (some "")) 1 1
      { slide_number := 1, text := some " hello ", ai_narration := none, extra := [] }
      [] 0).2.2.2 = 2 ∧
    (processSlide ⟨qSevenTenths, "engaging"⟩ false
      (fun _ => GenResult.ok (some "")) 1 1
      { slide_number := 1, text := some " hello ", ai_narration := none, extra := [] }
      [] 0).1.ai_narration = some "hello" ∧
    (some "hello" : Option String) ≠ some " hello " := by
  refine ⟨by decide, by decide, by decide⟩

/-- Witness for `auth_short_circuit` at a concrete slide and backend. -/
theorem auth_short_circuit_witness :
    countGenCalls (processSlide ⟨qSevenTenths, "engaging"⟩ false
      (fun _ => GenResult.error "403 PERMISSION_DENIED") 1 1
      { slide_number := 1, text := some "Hello world", ai_narration := none, extra := [] }
      [] 0).2.2.2 = 1 ∧
    (processSlide ⟨qSevenTenths, "engaging"⟩ false
      (fun _ => GenResult.error "403 PERMISSION_DENIED") 1 1
      { slide_number := 1, text := some "Hello world", ai_narration := none, extra := [] }
      [] 0).1.ai_narration = some (pyStrip ((some "Hello world").getD "")) :=
  auth_short_circuit ⟨qSevenTenths, "engaging"⟩ false
    (fun _ => GenResult.error "403 PERMISSION_DENIED") 1 1
    { slide_number := 1, text := some "Hello world", ai_narration := none, extra := [] }
    [] 0 "403 PERMISSION_DENIED" (by decide) rfl (by decide)

/-- Counterexample to claim C3 as stated: for the slide text " hello there "
and a backend raising "403 Forbidden", exactly 1 call is made but the
narration is the stripped "hello there", not the original `text` field
" hello there ". -/
theorem auth_short_circuit_cex :
    countGenCalls (processSlide ⟨qSevenTenths, "engaging"⟩ false
      (fun _ => GenResult.error "403 Forbidden") 1 1
      { slide_number := 1, text := some " hello there ", ai_narration := none, extra := [] }
      [] 0).2.2.2 = 1 ∧
    (processSlide ⟨qSevenTenths, "engaging"⟩ false
      (fun _ => GenResult.error "403 Forbidden") 1 1
      { slide_number := 1, text := some " hello there ", ai_narration := none, extra := [] }
      [] 0).1.ai_narration = some "hello there" ∧
    (some "hello there" : Option String) ≠ some " hello there " := by
  refine ⟨by decide, by decide, by decide⟩

/-- Witness for `trivial_passthrough` at a concrete slide. -/
theorem trivial_passthrough_witness :
    processSlide ⟨qSevenTenths, "engaging"⟩ false (fun _ => GenResult.ok none) 1 1
      { slide_number := 1, text := some "hi.", ai_narration := none, extra := [] } [] 0 =
      ({ slide_number := 1, text := some "hi.",
         ai_narration := some (pyStrip ((some "hi.").getD "")), extra := [] }, [], 0, []) :=
  trivial_passthrough ⟨qSevenTenths, "engaging"⟩ false (fun _ => GenResult.ok none) 1 1
    { slide_number := 1, text := some "hi.", ai_narration := none, extra := [] } [] 0 (by decide)

/-- Counterexample to claim C5 as stated: the trivial slide with
`text = " hi "` gets narration "hi" (the stripped text), which differs from
the `text` field " hi " character for character. -/
theorem trivial_passthrough_cex :
    ((narrateSlides ⟨qSevenTenths, "engaging"⟩ false (fun _ => GenResult.ok none)
      [{ slide_number := 1, text := some " hi ", ai_narration := none, extra := [] }]).1.map
      Slide.ai_narration = [some "hi"]) ∧
    ([some "hi"] : List (Option String)) ≠ [some " hi "] := by
  refine ⟨by decide, by decide⟩

/-- Witness for `generation_temperature` at a concrete slide and backend. -/
theorem generation_temperature_witness :
    qSevenTenths = (Narrator.mk qSevenTenths "professional").temperature :=
  generation_temperature ⟨qSevenTenths, "professional"⟩ false
    (fun _ => GenResult.ok (some "Generated narration")) 1 1
    { slide_number := 1, text := some "Hello world", ai_narration := none, extra := [] }
    [] 0 qSevenTenths (by decide)

/-- Counterexample to claim C4 as stated: with style "professional"
(style temperature 0.5) and the constructor default temperature 0.7, the
generation call is made with 0.7, not with the style's 0.5. -/
theorem style_temperature_cex :
    (getStyleConfig "professional").temperature = 1/2 ∧
    genCallTemps (processSlide ⟨qSevenTenths, "professional"⟩ false
      (fun _ => GenResult.ok (some "Generated narration")) 1 1
      { slide_number := 1, text := some "Hello world", ai_narration := none, extra := [] }
      [] 0).2.2.2 = [qSevenTenths] ∧
    qSevenTenths = 7/10 ∧ ((7 : ℚ)/10) ≠ 1/2 := by
  have h : getStyleConfig "professional" = professionalStyle := by decide
  exact ⟨by rw [h]; exact qHalf_eq, by decide, qSevenTenths_eq, by norm_num⟩


theorem strTake_length_le (s : String) (n : Nat) : (strTake s n).length ≤ n := by
  show (s.data.take n).length ≤ n
  rw [List.length_take]
  omega

theorem strTake_prefix (s : String) (n : Nat) : (strTake s n).data <+: s.data :=
  List.take_prefix ..

theorem strTakeRight_length_le (s : String) (n : Nat) : (strTakeRight s n).length ≤ n := by
  show (s.data.drop (s.data.length - n)).length ≤ n
  rw [List.length_drop]
  omega

theorem strTakeRight_suffix (s : String) (n : Nat) : (strTakeRight s n).data <:+ s.data :=
  List.drop_suffix ..

theorem takeLast_length_le {α : Type} (l : List α) : (takeLast 2 l).length ≤ 2 := by
  show (l.drop (l.length - 2)).length ≤ 2
  rw [List.length_drop]
  omega

theorem takeLast_suffix {α : Type} (l : List α) : takeLast 2 l <:+ l :=
  List.drop_suffix ..

theorem processSlide_hist (nar : Narrator) (cb : Bool) (backend : Nat → GenResult)
    (total i : Nat) (slide : Slide) (hist : List ContextEntry) (calls : Nat) :
    (processSlide nar cb backend total i slide hist calls).2.1 = hist ∨
    ∃ narr k t, k ≤ 1 ∧ backend (calls + k) = GenResult.ok t ∧ respSuccess t = true ∧
      narr = pyStrip (t.getD "") ∧
      (processSlide nar cb backend total i slide hist calls).2.1 =
        hist ++ [⟨i, pyStrip (slide.text.getD ""), narr⟩] ∧
      (processSlide nar cb backend total i slide hist calls).1.ai_narration = some narr := by
  by_cases h : (pyStrip (slide.text.getD "")).length < 5
  · left
    simp only [processSlide]
    rw [if_pos h]
  · simp only [processSlide]
    rw [if_neg h]
    exact slideAttempts_hist ..

theorem beq_false_of_ne {a b : Nat} (h : a ≠ b) : (a == b) = false := by
  simpa using h

theorem buildPrompt_body (style : String) (hist : List ContextEntry) (slide_text : String)
    (slide_number total_slides : Nat) (is_title : Bool)
    (h1 : slide_number ≠ 1) (h2 : slide_number ≠ total_slides) :
    buildContextAwarePrompt style hist slide_text slide_number total_slides is_title =
      bodyPrompt (getStyleConfig style).prompt_style slide_text slide_number total_slides hist := by
  simp [buildContextAwarePrompt, beq_false_of_ne h1, beq_false_of_ne h2]

theorem buildPrompt_closer (style : String) (hist : List ContextEntry) (slide_text : String)
    (total_slides : Nat) (is_title : Bool) (htot : 1 < total_slides) :
    buildContextAwarePrompt style hist slide_text total_slides total_slides is_title =
      closerPrompt (getStyleConfig style).prompt_style slide_text hist := by
  simp [buildContextAwarePrompt, beq_false_of_ne (by omega : total_slides ≠ 1)]


/-- Claim C7: when `total_slides > 1`, the last slide's prompt contains the
instruction to end with the exact sign-off phrase, contains the instruction
forbidding a greeting, and, when at least one prior slide succeeded (the
conversation history is non-empty), embeds the first 100 characters of the
most recent successful narration as bridging context. -/
theorem closer_signoff (style : String) (hist : List ContextEntry) (slide_text : String)
    (total_slides : Nat) (is_title : Bool) (last : ContextEntry)
    (htot : 1 < total_slides) :
    strContains (buildContextAwarePrompt style hist slide_text total_slides total_slides is_title)
      signOffLine = true ∧
    strContains (buildContextAwarePrompt style hist slide_text total_slides total_slides is_title)
      noGreetingLine = true ∧
    (hist.getLast? = some last →
      strContains (buildContextAwarePrompt style hist slide_text total_slides total_slides is_title)
        (strTake last.narration 100) = true ∧
      (strTake last.narration 100).length ≤ 100 ∧
      (strTake last.narration 100).data <+: last.narration.data) := by
  rw [buildPrompt_closer style hist slide_text total_slides is_title htot]
  refine ⟨?_, ?_, fun hlast => ⟨?_, strTake_length_le .., strTake_prefix ..⟩⟩
  · apply strContains_of_eq _
      ("You are concluding a presentation. This is the Final Slide.\n" ++
       "Context from previous slide: " ++ closerContext hist ++ "\n" ++
       "Final Slide Content: " ++ slide_text ++ "\n\n" ++
       "INSTRUCTIONS:\n" ++
       "1. Briefly summarize the main takeaway.\n" ++ noGreetingLine) _
      ("Tone: " ++ (getStyleConfig style).prompt_style)
    simp only [closerPrompt, String.append_assoc]
  · apply strContains_of_eq _
      ("You are concluding a presentation. This is the Final Slide.\n" ++
       "Context from previous slide: " ++ closerContext hist ++ "\n" ++
       "Final Slide Content: " ++ slide_text ++ "\n\n" ++
       "INSTRUCTIONS:\n" ++
       "1. Briefly summarize the main takeaway.\n") _
      (signOffLine ++ ("Tone: " ++ (getStyleConfig style).prompt_style))
    simp only [closerPrompt, String.append_assoc]
  · have hcc : closerContext hist =
        "Previous slide discussed: " ++ strTake last.narration 100 ++ "..." := by
      simp [closerContext, hlast]
    apply strContains_of_eq _
      ("You are concluding a presentation. This is the Final Slide.\n" ++
       "Context from previous slide: " ++ "Previous slide discussed: ") _
      ("..." ++ ("\n" ++
       ("Final Slide Content: " ++ (slide_text ++ ("\n\n" ++
       ("INSTRUCTIONS:\n" ++
       ("1. Briefly summarize the main takeaway.\n" ++ (noGreetingLine ++
       (signOffLine ++ ("Tone: " ++ (getStyleConfig style).prompt_style))))))))))
    simp only [closerPrompt, hcc, String.append_assoc]


/-- Claim C6: a body slide's prompt embeds the "previous context" section
built from at most the 2 most recent context entries (a suffix of the
history), each embedded narration truncated to at most its final 150
characters; and context entries are created only for slides whose generation
succeeded (a non-empty backend response), never for trivial or fallback
slides. -/
theorem context_bound (style : String) (hist : List ContextEntry) (slide_text : String)
    (slide_number total_slides : Nat) (is_title : Bool) (p : ContextEntry)
    (nar : Narrator) (cb : Bool) (backend : Nat → GenResult) (total i : Nat)
    (slide : Slide) (hist0 : List ContextEntry) (calls : Nat)
    (h1 : slide_number ≠ 1) (h2 : slide_number ≠ total_slides) :
    strContains (buildContextAwarePrompt style hist slide_text slide_number total_slides is_title)
      (bodyContext hist) = true ∧
    (takeLast 2 hist).length ≤ 2 ∧
    takeLast 2 hist <:+ hist ∧
    (strTakeRight p.narration 150).length ≤ 150 ∧
    (strTakeRight p.narration 150).data <:+ p.narration.data ∧
    ((processSlide nar cb backend total i slide hist0 calls).2.1 = hist0 ∨
      ∃ narr k t, k ≤ 1 ∧ backend (calls + k) = GenResult.ok t ∧ respSuccess t = true ∧
        narr = pyStrip (t.getD "") ∧
        (processSlide nar cb backend total i slide hist0 calls).2.1 =
          hist0 ++ [⟨i, pyStrip (slide.text.getD ""), narr⟩] ∧
        (processSlide nar cb backend total i slide hist0 calls).1.ai_narration = some narr) := by
  refine ⟨?_, takeLast_length_le .., takeLast_suffix .., strTakeRight_length_le ..,
    strTakeRight_suffix .., processSlide_hist ..⟩
  rw [buildPrompt_body style hist slide_text slide_number total_slides is_title h1 h2]
  apply strContains_of_eq _
    ("You are narrating slide " ++ toString slide_number ++ " of " ++ toString total_slides ++
     " (Middle of presentation).\n\n" ++
     "PREVIOUS CONTEXT (flow from this):\n") _
    ("\n\n" ++
     ("CURRENT SLIDE CONTENT:\n" ++ (slide_text ++ ("\n\n" ++
     ("STRICT INSTRUCTIONS:\n" ++
     ("1. Do NOT say \x27Good morning\x27, \x27Hello\x27, or \x27Welcome\x27 again.\n" ++
     ("2. Do NOT introduce yourself.\n" ++
     ("3. Use a transition phrase (e.g., \x27Moving on...\x27, \x27Furthermore...\x27, \x27As we can see here...\x27) to connect to the previous context.\n" ++
     ("4. Explain the current slide content naturally.\n" ++
     ("Tone: " ++ (getStyleConfig style).prompt_style))))))))))
  simp only [bodyPrompt, String.append_assoc]

/-- Claim C8: the prompt builder selects exactly one of the three templates by
position alone — the opener whenever `slide_number == 1` (including
`total_slides == 1`, where the opener takes precedence over the closer
check), the closer when `slide_number == total_slides` and `slide_number ≠ 1`,
and the body template otherwise. -/
theorem template_selection (style : String) (hist : List ContextEntry) (slide_text : String)
    (slide_number total_slides : Nat) (is_title : Bool) :
    (slide_number = 1 →
      buildContextAwarePrompt style hist slide_text slide_number total_slides is_title =
        openerPrompt (getStyleConfig style).prompt_style slide_text total_slides) ∧
    (slide_number ≠ 1 → slide_number = total_slides →
      buildContextAwarePrompt style hist slide_text slide_number total_slides is_title =
        closerPrompt (getStyleConfig style).prompt_style slide_text hist) ∧
    (slide_number ≠ 1 → slide_number ≠ total_slides →
      buildContextAwarePrompt style hist slide_text slide_number total_slides is_title =
        bodyPrompt (getStyleConfig style).prompt_style slide_text slide_number total_slides
          hist) := by
  refine ⟨fun h1 => ?_, fun h1 h2 => ?_, fun h1 h2 => ?_⟩
  · subst h1
    simp [buildContextAwarePrompt]
  · subst h2
    simp [buildContextAwarePrompt, beq_false_of_ne h1]
  · exact buildPrompt_body style hist slide_text slide_number total_slides is_title h1 h2

/-- Witness for `closer_signoff` at a concrete two-slide deck position. -/
theorem closer_signoff_witness :
    strContains (buildContextAwarePrompt "engaging" [⟨1, "t1", "n1"⟩] "Goodbye" 2 2 false)
      signOffLine = true ∧
    strContains (buildContextAwarePrompt "engaging" [⟨1, "t1", "n1"⟩] "Goodbye" 2 2 false)
      noGreetingLine = true ∧
    ((([⟨1, "t1", "n1"⟩] : List ContextEntry).getLast? = some ⟨1, "t1", "n1"⟩) →
      strContains (buildContextAwarePrompt "engaging" [⟨1, "t1", "n1"⟩] "Goodbye" 2 2 false)
        (strTake (ContextEntry.mk 1 "t1" "n1").narration 100) = true ∧
      (strTake (ContextEntry.mk 1 "t1" "n1").narration 100).length ≤ 100 ∧
      (strTake (ContextEntry.mk 1 "t1" "n1").narration 100).data <+:
        (ContextEntry.mk 1 "t1" "n1").narration.data) :=
  closer_signoff "engaging" [⟨1, "t1", "n1"⟩] "Goodbye" 2 false ⟨1, "t1", "n1"⟩ (by omega)

/-- Witness for `template_selection`: a one-slide deck still gets the opener. -/
theorem template_selection_witness :
    buildContextAwarePrompt "engaging" [] "Solo deck" 1 1 true =
      openerPrompt (getStyleConfig "engaging").prompt_style "Solo deck" 1 :=
  (template_selection "engaging" [] "Solo deck" 1 1 true).1 rfl

/-- Witness for `context_bound` at a concrete body slide with two history
entries. -/
theorem context_bound_witness :
    strContains (buildContextAwarePrompt "engaging" [⟨1, "a", "n1"⟩, ⟨2, "b", "n2"⟩] "Hello" 3 4 false)
      (bodyContext [⟨1, "a", "n1"⟩, ⟨2, "b", "n2"⟩]) = true ∧
    (takeLast 2 ([⟨1, "a", "n1"⟩, ⟨2, "b", "n2"⟩] : List ContextEntry)).length ≤ 2 ∧
    takeLast 2 ([⟨1, "a", "n1"⟩, ⟨2, "b", "n2"⟩] : List ContextEntry) <:+
      [⟨1, "a", "n1"⟩, ⟨2, "b", "n2"⟩] ∧
    (strTakeRight (ContextEntry.mk 1 "a" "n1").narration 150).length ≤ 150 ∧
    (strTakeRight (ContextEntry.mk 1 "a" "n1").narration 150).data <:+
      (ContextEntry.mk 1 "a" "n1").narration.data ∧
    ((processSlide ⟨qSevenTenths, "engaging"⟩ false (fun _ => GenResult.ok (some "fine")) 4 3
        { slide_number := 3, text := some "Hello world", ai_narration := none, extra := [] }
        [⟨1, "a", "n1"⟩, ⟨2, "b", "n2"⟩] 0).2.1 = [⟨1, "a", "n1"⟩, ⟨2, "b", "n2"⟩] ∨
      ∃ narr k t, k ≤ 1 ∧ (fun _ => GenResult.ok (some "fine")) (0 + k) = GenResult.ok t ∧
        respSuccess t = true ∧ narr = pyStrip (t.getD "") ∧
        (processSlide ⟨qSevenTenths, "engaging"⟩ false (fun _ => GenResult.ok (some "fine")) 4 3
          { slide_number := 3, text := some "Hello world", ai_narration := none, extra := [] }
          [⟨1, "a", "n1"⟩, ⟨2, "b", "n2"⟩] 0).2.1 =
          [⟨1, "a", "n1"⟩, ⟨2, "b", "n2"⟩] ++
            [⟨3, pyStrip (((some "Hello world" : Option String)).getD ""), narr⟩] ∧
        (processSlide ⟨qSevenTenths, "engaging"⟩ false (fun _ => GenResult.ok (some "fine")) 4 3
          { slide_number := 3, text := some "Hello world", ai_narration := none, extra := [] }
          [⟨1, "a", "n1"⟩, ⟨2, "b", "n2"⟩] 0).1.ai_narration = some narr) :=
  context_bound "engaging" [⟨1, "a", "n1"⟩, ⟨2, "b", "n2"⟩] "Hello" 3 4 false ⟨1, "a", "n1"⟩
    ⟨qSevenTenths, "engaging"⟩ false (fun _ => GenResult.ok (some "fine")) 4 3
    { slide_number := 3, text := some "Hello world", ai_narration := none, extra := [] }
    [⟨1, "a", "n1"⟩, ⟨2, "b", "n2"⟩] 0 (by decide) (by decide)

end Pptx
